import Mathlib

/-!
Verification of the Rini API client (`rini_client.py`).

The client is a thin asynchronous wrapper around a REST API.  Its one piece
of logic is the generic request primitive `_perform_request`, which issues an
HTTP call and translates every failure into the single domain exception
`RiniApiException`; the remaining methods are parameter-marshaling wrappers
that build JSON bodies or query-parameter dictionaries from named optional
arguments.

We embed the client shallowly:
* JSON values are an inductive type; Python dictionaries are
  insertion-ordered association lists with distinct keys.
* The outcome of the underlying `httpx` call is an inductive
  `TransportOutcome` (a response with a status code and a body, a transport
  error, or any other local exception), and `_perform_request` becomes a
  total function from that outcome to `Except RiniApiException (Option Json)`.
* Each typed method's payload construction becomes a pure function from its
  arguments to the association list it transmits.
-/

namespace Rini

/-- JSON values, as produced by parsing an HTTP response body. -/
inductive Json where
  | null
  | bool (b : Bool)
  | num (n : Int)
  | str (s : String)
  | arr (elems : List Json)
  | obj (fields : List (String × Json))

/-- Python `dict.get`: look a key up in the association list representing a
parsed JSON object (keys are distinct after parsing, so first match suffices). -/
def dictGet (fields : List (String × Json)) (key : String) : Option Json :=
  match fields with
  | [] => none
  | (k, v) :: rest => if k == key then some v else dictGet rest key

/-- The domain exception `RiniApiException` (rini_client.py lines 8-13): a
status code and a detail payload.  The detail is any JSON value in the
server-reported case and a string in the transport / local-failure cases. -/
structure RiniApiException where
  status_code : Nat
  detail : Json

/-- An HTTP response as the client observes it: the status code and the
result of attempting to parse the body as JSON (`none` means the body is not
valid JSON, so `response.json()` raises a decode error). -/
structure HttpResponse where
  status_code : Nat
  jsonBody : Option Json

/-- The possible outcomes of the underlying `httpx` call inside the `try`
block of `_perform_request` (lines 72-80): a response came back, the
transport failed (`httpx.RequestError`: connection refused, timeout, DNS
failure, ...), or some other local exception was raised. -/
inductive TransportOutcome where
  | ok (resp : HttpResponse)
  | requestError (message : String)
  | otherError (message : String)

/-- Modelled from the httpx library (external collaborator): the category
prefix of the `HTTPStatusError` message produced by `raise_for_status`. -/
def httpErrorCategory (status : Nat) : String :=
  if status < 300 then "Informational response"
  else if status < 400 then "Redirect response"
  else if status < 500 then "Client error"
  else "Server error"

/-- Modelled from the httpx library (external collaborator): the message of
the `HTTPStatusError` raised by `raise_for_status`, i.e. what `str(e)` yields
at line 86.  Abbreviated, but like the real message it always names the
status and is never empty. -/
def httpStatusErrorMessage (status : Nat) : String :=
  httpErrorCategory status ++ " '" ++ toString status ++ "' for url"

/-- Modelled from Python's json library (external collaborator): the message
of the decode error raised when `response.json()` is called on a body that is
not valid JSON. -/
def jsonDecodeErrorMessage : String := "Expecting value: line 1 column 1 (char 0)"

/-- The Python exceptions the `try` block of `_perform_request` can raise,
matching its three `except` clauses (lines 85, 93, 95). -/
inductive PyExc where
  | httpStatusError (resp : HttpResponse)
  | requestError (message : String)
  | other (message : String)

/-- `raise_for_status` raises unless the status code is in the 2xx success
range (line 81). -/
def is_success (status : Nat) : Bool := 200 ≤ status && status < 300

/-- The `try` block of `_perform_request` (lines 71-84): issue the request;
`raise_for_status` turns a non-2xx response into an `HTTPStatusError`; a 204
response returns `None` immediately; otherwise `response.json()` parses the
body, raising a decode error (caught by the generic handler) if it is not
valid JSON. -/
def tryBody (t : TransportOutcome) : Except PyExc (Option Json) :=
  match t with
  | .ok resp =>
      if is_success resp.status_code then
        if resp.status_code = 204 then .ok none
        else
          match resp.jsonBody with
          | some j => .ok (some j)
          | none => .error (.other jsonDecodeErrorMessage)
      else .error (.httpStatusError resp)
  | .requestError msg => .error (.requestError msg)
  | .otherError msg => .error (.other msg)

/-- Detail extraction in the `HTTPStatusError` handler (lines 86-91):
start from `str(e)`; if the error body parses as a JSON object, take its
`"detail"` field, defaulting to `str(e)`; if the body is unparseable, or the
parsed value is not a dict (so `.get` raises and is swallowed by the inner
`except`), keep `str(e)`. -/
def statusErrorDetail (resp : HttpResponse) : Json :=
  match resp.jsonBody with
  | some (.obj fields) =>
      match dictGet fields "detail" with
      | some v => v
      | none => .str (httpStatusErrorMessage resp.status_code)
  | _ => .str (httpStatusErrorMessage resp.status_code)

/-- The three `except` clauses of `_perform_request` (lines 85-96): each
translates its exception into a `RiniApiException` — original status with
extracted detail for a server-reported error, fixed 503 for a transport
failure, fixed 500 for any other local failure. -/
def translateExc (e : PyExc) : RiniApiException :=
  match e with
  | .httpStatusError resp => ⟨resp.status_code, statusErrorDetail resp⟩
  | .requestError msg => ⟨503, .str ("Request to Rini API failed: " ++ msg)⟩
  | .other msg => ⟨500, .str ("An unexpected client-side error occurred: " ++ msg)⟩

/-- `RiniAPIClient._perform_request` (lines 58-96) as a total function from
the transport outcome: the `try` body's result, with every raised exception
translated into the domain exception. -/
def perform_request (t : TransportOutcome) : Except RiniApiException (Option Json) :=
  match tryBody t with
  | .ok v => .ok v
  | .error e => .error (translateExc e)

/-! ## Client state and headers -/

/-- The mutable client state relevant to header construction (`__init__`,
lines 17-21): the base URL and the optional bearer token.  Tokens issued by
the API are strings (`POST /users/` returns an access token string). -/
structure ClientState where
  base_url : String
  token : Option String

/-- Python truthiness of an optional string: `None` and `""` are falsy. -/
def optStrTruthy : Option String → Bool
  | none => false
  | some s => !s.isEmpty

/-- `RiniAPIClient._get_headers` (lines 35-40): always accept JSON; add the
`Authorization` bearer header only when the token is set and truthy
(`if self.token:` — an empty-string token adds no header). -/
def get_headers (c : ClientState) : List (String × String) :=
  [("accept", "application/json")] ++
    (match c.token with
     | some t => if t.isEmpty then [] else [("Authorization", "Bearer " ++ t)]
     | none => [])

/-- Look a header up by name in the header list built by `get_headers`. -/
def headerLookup (headers : List (String × String)) (name : String) : Option String :=
  match headers with
  | [] => none
  | (k, v) :: rest => if k == name then some v else headerLookup rest name

/-- `RiniAPIClient.set_token` (lines 98-101). -/
def set_token (c : ClientState) (t : String) : ClientState :=
  { c with token := some t }

/-- The token side effect of `create_user_and_set_token` (lines 104-111),
applied to the response of `POST /users/` before that response is returned:
if the response is a truthy dict containing the key `"access_token"`, store
its (string) value via `set_token`; otherwise leave the state unchanged.
(A dict containing the key is automatically truthy, so the `response_data
and "access_token" in response_data` guard reduces to key presence.) -/
def create_user_apply_token (c : ClientState) (response_data : Option Json) : ClientState :=
  match response_data with
  | some (.obj fields) =>
      match dictGet fields "access_token" with
      | some (.str t) => set_token c t
      | _ => c
  | _ => c

/-- `create_user_and_set_token` returns the response unchanged after the
token side effect: final state paired with the returned value. -/
def create_user_and_set_token (c : ClientState) (response_data : Option Json) :
    ClientState × Option Json :=
  (create_user_apply_token c response_data, response_data)

/-! ## Typed endpoint methods: payload and query-parameter construction

Each typed method builds a Python dict (here an insertion-ordered
association list) and hands it to the request primitive.  Optional
arguments are included under two conventions found in the source:
`if x is not None:` (modelled by `addIfSome`) and truthiness `if x:`
(modelled by `addIfTruthy`). -/

/-- One optional entry guarded by `if x is not None:`. -/
def addIfSome (key : String) (v : Option Json) : List (String × Json) :=
  match v with
  | some j => [(key, j)]
  | none => []

/-- Python truthiness of a JSON value ( `None`, `False`, `0`, `""`, `[]`,
`{}` are falsy). -/
def pyTruthy : Json → Bool
  | .null => false
  | .bool b => b
  | .num n => n != 0
  | .str s => !s.isEmpty
  | .arr elems => !elems.isEmpty
  | .obj fields => !fields.isEmpty

/-- One optional entry guarded by truthiness `if x:`. -/
def addIfTruthy (key : String) (v : Option Json) : List (String × Json) :=
  match v with
  | some j => if pyTruthy j then [(key, j)] else []
  | none => []

/-- The keys of a payload / query-parameter dict. -/
def payloadKeys (l : List (String × Json)) : List String := l.map Prod.fst

/-- `register_api_key` body (lines 119-124). -/
def register_api_key_payload (model_provider api_key_value : String)
    (description : Option String) : List (String × Json) :=
  [("model_provider", .str model_provider), ("api_key_value", .str api_key_value)]
    ++ addIfSome "description" (description.map .str)

/-- `list_api_keys` query parameters (lines 126-128). -/
def list_api_keys_params (skip limit : Int) : List (String × Json) :=
  [("skip", .num skip), ("limit", .num limit)]

/-- `update_api_key` body (lines 134-139). -/
def update_api_key_payload (description : Option String) (is_active : Option Bool) :
    List (String × Json) :=
  addIfSome "description" (description.map .str)
    ++ addIfSome "is_active" (is_active.map .bool)

/-- `create_session` body (lines 147-152): `memory_mode` (default `"auto"`)
always present, `alias` and `system_prompt` only when supplied. -/
def create_session_payload («alias» system_prompt : Option String) (memory_mode : String) :
    List (String × Json) :=
  [("memory_mode", .str memory_mode)]
    ++ addIfSome "alias" («alias».map .str)
    ++ addIfSome "system_prompt" (system_prompt.map .str)

/-- `list_sessions` query parameters (lines 154-156). -/
def list_sessions_params (skip limit : Int) : List (String × Json) :=
  [("skip", .num skip), ("limit", .num limit)]

/-- `update_session` body (lines 162-168). -/
def update_session_payload («alias» system_prompt memory_mode : Option String) :
    List (String × Json) :=
  addIfSome "alias" («alias».map .str)
    ++ addIfSome "system_prompt" (system_prompt.map .str)
    ++ addIfSome "memory_mode" (memory_mode.map .str)

/-- `list_session_messages` query parameters (lines 182-184). -/
def list_session_messages_params (skip limit : Int) : List (String × Json) :=
  [("skip", .num skip), ("limit", .num limit)]

/-- `get_message_parent_history` (lines 190-192): the request it issues —
the path for the given message id, and its query parameters (`params` is
left at its `None` default: no query parameters are sent). -/
def get_message_parent_history_request (message_id : Int) :
    String × Option (List (String × Json)) :=
  ("/messages/" ++ toString message_id ++ "/history", none)

/-- `get_text_from_text` body (lines 195-204): `session_id` and
`llm_params` are guarded by truthiness. -/
def get_text_from_text_payload (text provider model : String)
    (session_id : Option String) (llm_params : Option (List (String × Json))) :
    List (String × Json) :=
  [("text", .str text), ("provider", .str provider), ("model", .str model)]
    ++ addIfTruthy "session_id" (session_id.map .str)
    ++ addIfTruthy "llm_params" (llm_params.map .obj)

/-- `get_text_from_messages` body (lines 206-213). -/
def get_text_from_messages_payload (messages : List Json) (provider model : String)
    (llm_params : Option (List (String × Json))) : List (String × Json) :=
  [("messages", .arr messages), ("provider", .str provider), ("model", .str model)]
    ++ addIfTruthy "llm_params" (llm_params.map .obj)

/-- One optional string-valued form field guarded by truthiness `if x:`. -/
def addFormIfTruthy (key : String) (v : Option String) : List (String × String) :=
  match v with
  | some s => if s.isEmpty then [] else [(key, s)]
  | none => []

/-- The keys of a multipart form-field dict. -/
def formKeys (l : List (String × String)) : List String := l.map Prod.fst

/-- Multipart form fields of `get_text_from_image_and_text` (lines 223-226):
`provider` always present, the rest guarded by truthiness.  Values are
strings already, so the later `str(...)` coercion (line 237) is the
identity on them. -/
def image_completion_form_data (provider : String)
    (prompt model session_id : Option String) : List (String × String) :=
  [("provider", provider)]
    ++ addFormIfTruthy "prompt" prompt
    ++ addFormIfTruthy "model" model
    ++ addFormIfTruthy "session_id" session_id

/-- Outcome of `get_text_from_image_and_text` before any response arrives:
either the local file-existence check fails — raising `FileNotFoundError`,
which is not a `RiniApiException` — or a network request is issued with the
form fields and the file part. -/
inductive ImageCompletionOutcome where
  | fileNotFound (message : String)
  | request (form_data : List (String × String)) (file_path : String)

/-- `os.path.exists`, with the local filesystem modelled as the list of
existing paths. -/
def os_path_exists (fs : List String) (path : String) : Bool := fs.contains path

/-- `get_text_from_image_and_text` (lines 215-239) up to issuing the
request: fail fast with `FileNotFoundError` when the image path does not
exist, otherwise build the form fields and send the multipart request. -/
def get_text_from_image_and_text (fs : List String) (image_file_path provider : String)
    (model prompt session_id : Option String) : ImageCompletionOutcome :=
  if !os_path_exists fs image_file_path then
    .fileNotFound ("Image file not found: " ++ image_file_path)
  else
    .request (image_completion_form_data provider prompt model session_id) image_file_path

/-- `add_mcp_connection` body (lines 251-256): `url` and `is_active` always
present, `alias` and `description` guarded by truthiness. -/
def add_mcp_connection_payload (url : String) («alias» description : Option String)
    (is_active : Bool) : List (String × Json) :=
  [("mcp_server_url", .str url), ("is_active", .bool is_active)]
    ++ addIfTruthy "alias" («alias».map .str)
    ++ addIfTruthy "description" (description.map .str)

/-- `list_mcp_connections` query parameters (lines 258-262). -/
def list_mcp_connections_params (is_active : Option Bool) (skip limit : Int) :
    List (String × Json) :=
  [("skip", .num skip), ("limit", .num limit)]
    ++ addIfSome "is_active" (is_active.map .bool)

/-- `list_memory_entries` query parameters (lines 285-294): the three
filters are guarded by truthiness. -/
def list_memory_entries_params (session_id scope memory_type : Option String)
    (skip limit : Int) : List (String × Json) :=
  [("skip", .num skip), ("limit", .num limit)]
    ++ addIfTruthy "session_id" (session_id.map .str)
    ++ addIfTruthy "scope" (scope.map .str)
    ++ addIfTruthy "memory_type" (memory_type.map .str)

/-- `get_cost_estimation` query parameters (lines 311-322): all five
filters guarded by truthiness; an empty dict when none is supplied. -/
def get_cost_estimation_params
    (start_date end_date session_id provider model : Option String) :
    List (String × Json) :=
  addIfTruthy "start_date" (start_date.map .str)
    ++ addIfTruthy "end_date" (end_date.map .str)
    ++ addIfTruthy "session_id" (session_id.map .str)
    ++ addIfTruthy "provider" (provider.map .str)
    ++ addIfTruthy "model" (model.map .str)

/-! ## Helper lemmas -/

theorem payloadKeys_append (a b : List (String × Json)) :
    payloadKeys (a ++ b) = payloadKeys a ++ payloadKeys b :=
  List.map_append _ a b

theorem notMem_payloadKeys_append {k : String} {a b : List (String × Json)}
    (ha : k ∉ payloadKeys a) (hb : k ∉ payloadKeys b) :
    k ∉ payloadKeys (a ++ b) := by
  intro h
  rw [payloadKeys_append] at h
  rcases List.mem_append.mp h with h1 | h1
  exacts [ha h1, hb h1]

theorem notMem_payloadKeys_addIfSome {k k' : String} (v : Option Json) (h : k ≠ k') :
    k ∉ payloadKeys (addIfSome k' v) := by
  cases v with
  | none => simp [addIfSome, payloadKeys]
  | some j =>
      simp [addIfSome, payloadKeys]
      exact h

theorem notMem_payloadKeys_addIfTruthy {k k' : String} (v : Option Json) (h : k ≠ k') :
    k ∉ payloadKeys (addIfTruthy k' v) := by
  cases v with
  | none => simp [addIfTruthy, payloadKeys]
  | some j =>
      by_cases hj : pyTruthy j <;> simp [addIfTruthy, payloadKeys, hj]
      exact h

theorem notMem_formKeys_append {k : String} {a b : List (String × String)}
    (ha : k ∉ formKeys a) (hb : k ∉ formKeys b) :
    k ∉ formKeys (a ++ b) := by
  intro h
  rw [formKeys, List.map_append] at h
  rcases List.mem_append.mp h with h1 | h1
  exacts [ha h1, hb h1]

theorem notMem_formKeys_addFormIfTruthy {k k' : String} (v : Option String) (h : k ≠ k') :
    k ∉ formKeys (addFormIfTruthy k' v) := by
  cases v with
  | none => simp [addFormIfTruthy, formKeys]
  | some s =>
      by_cases hs : s.isEmpty <;> simp [addFormIfTruthy, formKeys, hs]
      exact h

theorem addIfSome_none (k : String) : addIfSome k none = [] := rfl

theorem addIfTruthy_none (k : String) : addIfTruthy k none = [] := rfl

theorem addIfTruthy_empty_str (k : String) :
    addIfTruthy k (some (Json.str "")) = [] := by
  simp [addIfTruthy, pyTruthy, show String.isEmpty "" = true from by decide]

theorem addIfTruthy_empty_obj (k : String) :
    addIfTruthy k (some (Json.obj [])) = [] := rfl

theorem httpStatusErrorMessage_ne_empty (status : Nat) :
    httpStatusErrorMessage status ≠ "" := by
  intro h
  have hlen := congrArg String.length h
  have h1 : (" '" : String).length = 2 := by decide
  have h2 : ("' for url" : String).length = 9 := by decide
  have h3 : ("" : String).length = 0 := by decide
  rw [httpStatusErrorMessage, String.length_append, String.length_append,
    String.length_append, h1, h2, h3] at hlen
  omega

/-! ## The claims -/

/-- C1: for every invocation of the generic request primitive, the only
exception that escapes it is the domain exception `RiniApiException`: the
call either succeeds, or raises the domain exception, with the original
HTTP status for a server-reported error, the fixed marker 503 for a
transport failure, and the fixed marker 500 plus a detail string describing
the unexpected error for any other local failure. -/
theorem C1_exception_boundary (t : TransportOutcome) :
    (∃ v, perform_request t = .ok v) ∨
    (∃ ex : RiniApiException, perform_request t = .error ex ∧
      ((∃ resp, t = .ok resp ∧ is_success resp.status_code = false ∧
          ex.status_code = resp.status_code) ∨
       (∃ msg, t = .requestError msg ∧ ex.status_code = 503) ∨
       (∃ msg, ex.status_code = 500 ∧
          ex.detail = .str ("An unexpected client-side error occurred: " ++ msg)))) := by
  cases t with
  | ok resp =>
      by_cases hs : is_success resp.status_code
      · by_cases h204 : resp.status_code = 204
        · refine Or.inl ⟨none, ?_⟩
          rw [h204] at hs
          simp [perform_request, tryBody, hs, h204]
        · cases hb : resp.jsonBody with
          | some j =>
              exact Or.inl ⟨some j, by simp [perform_request, tryBody, hs, h204, hb]⟩
          | none =>
              refine Or.inr ⟨⟨500, .str ("An unexpected client-side error occurred: " ++
                jsonDecodeErrorMessage)⟩, ?_, ?_⟩
              · simp [perform_request, tryBody, hs, h204, hb, translateExc]
              · exact Or.inr (Or.inr ⟨jsonDecodeErrorMessage, rfl, rfl⟩)
      · refine Or.inr ⟨translateExc (.httpStatusError resp), ?_, ?_⟩
        · simp [perform_request, tryBody, hs]
        · exact Or.inl ⟨resp, rfl, by simpa using hs, rfl⟩
  | requestError msg =>
      exact Or.inr ⟨_, rfl, Or.inr (Or.inl ⟨msg, rfl, rfl⟩)⟩
  | otherError msg =>
      exact Or.inr ⟨_, rfl, Or.inr (Or.inr ⟨msg, rfl, rfl⟩)⟩

/-- C2: for every server error response (status outside the success range),
a body parsing as a JSON object with a `"detail"` field X yields the domain
exception with detail exactly X, a body unparseable as JSON yields the
domain exception with a non-empty generic description, and both carry the
original HTTP status code. -/
theorem C2_server_error_detail (status : Nat) (body : Option Json)
    (h : is_success status = false) :
    (∀ fields x, body = some (.obj fields) → dictGet fields "detail" = some x →
        perform_request (.ok ⟨status, body⟩) = .error ⟨status, x⟩) ∧
    (body = none →
        perform_request (.ok ⟨status, body⟩) =
          .error ⟨status, .str (httpStatusErrorMessage status)⟩ ∧
        httpStatusErrorMessage status ≠ "") := by
  constructor
  · intro fields x hb hd
    subst hb
    simp [perform_request, tryBody, h, translateExc, statusErrorDetail, hd]
  · intro hb
    subst hb
    exact ⟨by simp [perform_request, tryBody, h, translateExc, statusErrorDetail],
      httpStatusErrorMessage_ne_empty status⟩

/-- Witness for C2 at a concrete 404 response with body `{"detail": "X"}`. -/
theorem C2_server_error_detail_witness :
    perform_request (.ok ⟨404, some (.obj [("detail", .str "X")])⟩) =
      .error ⟨404, .str "X"⟩ :=
  (C2_server_error_detail 404 (some (.obj [("detail", .str "X")])) (by decide)).1
    [("detail", .str "X")] (.str "X") rfl rfl

/-- C3: every transport-level failure raises the domain exception with
status exactly 503 and a detail string naming the underlying transport
error. -/
theorem C3_transport_failure (msg : String) :
    perform_request (.requestError msg) =
      .error ⟨503, .str ("Request to Rini API failed: " ++ msg)⟩ := rfl

/-- C4: for every typed endpoint method and every combination of its
remaining arguments, an optional argument omitted by the caller (left at
its `None` default) never appears as a key in the transmitted JSON body or
query-parameter dict.  (Required-with-default parameters such as `skip`,
`limit`, `memory_mode` and `is_active` of `add_mcp_connection` are always
transmitted and are not optional in this sense.) -/
theorem C4_omitted_optionals_absent :
    (∀ mp akv, "description" ∉ payloadKeys (register_api_key_payload mp akv none)) ∧
    (∀ ia, "description" ∉ payloadKeys (update_api_key_payload none ia)) ∧
    (∀ d, "is_active" ∉ payloadKeys (update_api_key_payload d none)) ∧
    (∀ sp mm, "alias" ∉ payloadKeys (create_session_payload none sp mm)) ∧
    (∀ a mm, "system_prompt" ∉ payloadKeys (create_session_payload a none mm)) ∧
    (∀ sp mm, "alias" ∉ payloadKeys (update_session_payload none sp mm)) ∧
    (∀ a mm, "system_prompt" ∉ payloadKeys (update_session_payload a none mm)) ∧
    (∀ a sp, "memory_mode" ∉ payloadKeys (update_session_payload a sp none)) ∧
    (∀ t p m lp, "session_id" ∉ payloadKeys (get_text_from_text_payload t p m none lp)) ∧
    (∀ t p m sid, "llm_params" ∉ payloadKeys (get_text_from_text_payload t p m sid none)) ∧
    (∀ ms p m, "llm_params" ∉ payloadKeys (get_text_from_messages_payload ms p m none)) ∧
    (∀ p m sid, "prompt" ∉ formKeys (image_completion_form_data p none m sid)) ∧
    (∀ p pr sid, "model" ∉ formKeys (image_completion_form_data p pr none sid)) ∧
    (∀ p pr m, "session_id" ∉ formKeys (image_completion_form_data p pr m none)) ∧
    (∀ u d ia, "alias" ∉ payloadKeys (add_mcp_connection_payload u none d ia)) ∧
    (∀ u a ia, "description" ∉ payloadKeys (add_mcp_connection_payload u a none ia)) ∧
    (∀ sk li, "is_active" ∉ payloadKeys (list_mcp_connections_params none sk li)) ∧
    (∀ sc mt sk li, "session_id" ∉ payloadKeys (list_memory_entries_params none sc mt sk li)) ∧
    (∀ sid mt sk li, "scope" ∉ payloadKeys (list_memory_entries_params sid none mt sk li)) ∧
    (∀ sid sc sk li, "memory_type" ∉ payloadKeys (list_memory_entries_params sid sc none sk li)) ∧
    (∀ ed sid pr mo, "start_date" ∉ payloadKeys (get_cost_estimation_params none ed sid pr mo)) ∧
    (∀ sd sid pr mo, "end_date" ∉ payloadKeys (get_cost_estimation_params sd none sid pr mo)) ∧
    (∀ sd ed pr mo, "session_id" ∉ payloadKeys (get_cost_estimation_params sd ed none pr mo)) ∧
    (∀ sd ed sid mo, "provider" ∉ payloadKeys (get_cost_estimation_params sd ed sid none mo)) ∧
    (∀ sd ed sid pr, "model" ∉ payloadKeys (get_cost_estimation_params sd ed sid pr none)) := by
  refine ⟨?_, ?_, ?_, ?_, ?_, ?_, ?_, ?_, ?_, ?_, ?_, ?_, ?_, ?_, ?_, ?_, ?_, ?_, ?_, ?_,
    ?_, ?_, ?_, ?_, ?_⟩ <;>
  intros <;>
  simp only [register_api_key_payload, update_api_key_payload, create_session_payload,
    update_session_payload, get_text_from_text_payload, get_text_from_messages_payload,
    image_completion_form_data, add_mcp_connection_payload, list_mcp_connections_params,
    list_memory_entries_params, get_cost_estimation_params] <;>
  (repeat' first
    | apply notMem_payloadKeys_append
    | apply notMem_formKeys_append) <;>
  first
    | apply notMem_payloadKeys_addIfSome _ (by decide)
    | apply notMem_payloadKeys_addIfTruthy _ (by decide)
    | apply notMem_formKeys_addFormIfTruthy _ (by decide)
    | simp [payloadKeys, formKeys, addIfSome, addIfTruthy, addFormIfTruthy]

/-- C6: a "no content" (204) success response returns null without any
parse attempt (the body may even be unparseable), and every other
success-range response returns the parsed JSON body. -/
theorem C6_no_content_and_success_parse (status : Nat) (body : Option Json)
    (h : is_success status = true) :
    (status = 204 → perform_request (.ok ⟨status, body⟩) = .ok none) ∧
    (status ≠ 204 → ∀ j, body = some j →
        perform_request (.ok ⟨status, body⟩) = .ok (some j)) := by
  constructor
  · intro h204
    subst h204
    simp [perform_request, tryBody, h]
  · intro h204 j hb
    subst hb
    simp [perform_request, tryBody, h, h204]

/-- Witness for C6 at a concrete 204 response with an unparseable body. -/
theorem C6_no_content_witness :
    perform_request (.ok ⟨204, none⟩) = .ok none :=
  (C6_no_content_and_success_parse 204 none (by decide)).1 rfl

/-- C7: calling the image-completion method with a file path that does not
exist fails before any network request is attempted, with the distinct
`FileNotFoundError` signal (a constructor disjoint from any issued
request, and not the domain exception). -/
theorem C7_image_file_not_found (fs : List String) (image_file_path provider : String)
    (model prompt session_id : Option String)
    (h : os_path_exists fs image_file_path = false) :
    get_text_from_image_and_text fs image_file_path provider model prompt session_id =
      .fileNotFound ("Image file not found: " ++ image_file_path) := by
  simp [get_text_from_image_and_text, h]

/-- Witness for C7: an empty filesystem and a concrete missing path. -/
theorem C7_image_file_not_found_witness :
    get_text_from_image_and_text [] "missing.png" "openai" none none none =
      .fileNotFound ("Image file not found: " ++ "missing.png") :=
  C7_image_file_not_found [] "missing.png" "openai" none none none rfl

/-- C8: creating a session with alias "A", no system prompt and the default
memory mode sends a body that is exactly
`{"memory_mode": "auto", "alias": "A"}` and nothing else. -/
theorem C8_create_session_alias_only :
    create_session_payload (some "A") none "auto" =
      [("memory_mode", .str "auto"), ("alias", .str "A")] := rfl

/-- C10: in the typed methods that test optional arguments by truthiness,
an argument supplied as a falsy value — the empty string, or an empty dict
for `llm_params` — is omitted from the transmitted body/params exactly as
if it had not been supplied: the payload equals the payload built with the
argument absent, and in particular `get_text_from_text` with
`session_id = ""` sends no `session_id` key. -/
theorem C10_falsy_optionals_omitted :
    (∀ t p m lp, get_text_from_text_payload t p m (some "") lp =
        get_text_from_text_payload t p m none lp) ∧
    (∀ t p m lp, "session_id" ∉ payloadKeys (get_text_from_text_payload t p m (some "") lp)) ∧
    (∀ t p m sid, get_text_from_text_payload t p m sid (some []) =
        get_text_from_text_payload t p m sid none) ∧
    (∀ u d ia, add_mcp_connection_payload u (some "") d ia =
        add_mcp_connection_payload u none d ia) ∧
    (∀ sc mt sk li, list_memory_entries_params (some "") sc mt sk li =
        list_memory_entries_params none sc mt sk li) ∧
    (∀ sd ed sid pr, get_cost_estimation_params sd ed sid pr (some "") =
        get_cost_estimation_params sd ed sid pr none) := by
  refine ⟨?_, ?_, ?_, ?_, ?_, ?_⟩ <;> intros
  · simp [get_text_from_text_payload, addIfTruthy_empty_str, addIfTruthy_none]
  · simp only [get_text_from_text_payload, Option.map_some', addIfTruthy_empty_str]
    refine notMem_payloadKeys_append (notMem_payloadKeys_append ?_ ?_) ?_
    · simp [payloadKeys]
    · simp [payloadKeys]
    · exact notMem_payloadKeys_addIfTruthy _ (by decide)
  · simp [get_text_from_text_payload, addIfTruthy_empty_obj, addIfTruthy_none]
  · simp [add_mcp_connection_payload, addIfTruthy_empty_str, addIfTruthy_none]
  · simp [list_memory_entries_params, addIfTruthy_empty_str, addIfTruthy_none]
  · simp [get_cost_estimation_params, addIfTruthy_empty_str, addIfTruthy_none]

/-- C5 counterexample: a create-user response whose access-token field is
the empty string.  The stored token is updated to exactly that token, but a
subsequent request carries no `Authorization` header at all, because
`_get_headers` tests the token by truthiness (`if self.token:`).  So the
claim's unconditional "every subsequent request includes the bearer header"
fails at this input. -/
theorem C5_counterexample :
    (create_user_and_set_token ⟨"http://localhost:8000", none⟩
        (some (.obj [("access_token", .str "")]))).1.token = some "" ∧
    headerLookup (get_headers (create_user_and_set_token ⟨"http://localhost:8000", none⟩
        (some (.obj [("access_token", .str "")]))).1) "Authorization" = none :=
  ⟨rfl, rfl⟩

/-- C5 (amended): after a successful create-user call whose response
contains an access-token field, the client's stored token equals exactly
that returned token, the response is returned unchanged after the update,
and — provided the returned token is non-empty — every subsequent request
includes the header `Authorization: Bearer <that token>`. -/
theorem C5_token_update_and_bearer_header (c : ClientState)
    (fields : List (String × Json)) (t : String)
    (hd : dictGet fields "access_token" = some (.str t)) :
    (create_user_and_set_token c (some (.obj fields))).1.token = some t ∧
    (create_user_and_set_token c (some (.obj fields))).2 = some (.obj fields) ∧
    (t ≠ "" → headerLookup (get_headers
        (create_user_and_set_token c (some (.obj fields))).1) "Authorization" =
      some ("Bearer " ++ t)) := by
  refine ⟨?_, rfl, ?_⟩
  · simp [create_user_and_set_token, create_user_apply_token, hd, set_token]
  · intro ht
    have hie : t.isEmpty = false := by
      rw [Bool.eq_false_iff]
      intro hi
      exact ht ((String.isEmpty_iff t).mp hi)
    simp [create_user_and_set_token, create_user_apply_token, hd, set_token,
      get_headers, headerLookup, hie]

/-- Witness for C5 (amended) at a concrete non-empty token. -/
theorem C5_token_update_witness :
    (create_user_and_set_token ⟨"http://localhost:8000", none⟩
        (some (.obj [("access_token", .str "tok123")]))).1.token = some "tok123" ∧
    headerLookup (get_headers (create_user_and_set_token ⟨"http://localhost:8000", none⟩
        (some (.obj [("access_token", .str "tok123")]))).1) "Authorization" =
      some ("Bearer " ++ "tok123") := by
  have h := C5_token_update_and_bearer_header ⟨"http://localhost:8000", none⟩
    [("access_token", .str "tok123")] "tok123" rfl
  exact ⟨h.1, h.2.2 (by decide)⟩

/-- C9 counterexample: `get_message_parent_history` is list-returning (it
fetches the ancestor chain of a message) yet issues its request with no
query parameters at all — in particular it neither accepts nor passes
`skip`/`limit` — so not every list-returning method passes pagination
parameters through. -/
theorem C9_counterexample :
    (get_message_parent_history_request 1).2 = none := rfl

/-- C9 (amended): every list-returning method except the message
parent-history method accepts pagination parameters `skip` and `limit`
(with client-side defaults) and passes them through unchanged as query
parameters; `get_message_parent_history` sends no query parameters. -/
theorem C9_pagination_passthrough (skip limit : Int) :
    (dictGet (list_api_keys_params skip limit) "skip" = some (.num skip) ∧
     dictGet (list_api_keys_params skip limit) "limit" = some (.num limit)) ∧
    (dictGet (list_sessions_params skip limit) "skip" = some (.num skip) ∧
     dictGet (list_sessions_params skip limit) "limit" = some (.num limit)) ∧
    (dictGet (list_session_messages_params skip limit) "skip" = some (.num skip) ∧
     dictGet (list_session_messages_params skip limit) "limit" = some (.num limit)) ∧
    (∀ ia, dictGet (list_mcp_connections_params ia skip limit) "skip" = some (.num skip) ∧
     dictGet (list_mcp_connections_params ia skip limit) "limit" = some (.num limit)) ∧
    (∀ sid sc mt, dictGet (list_memory_entries_params sid sc mt skip limit) "skip" =
        some (.num skip) ∧
     dictGet (list_memory_entries_params sid sc mt skip limit) "limit" =
        some (.num limit)) :=
  ⟨⟨rfl, rfl⟩, ⟨rfl, rfl⟩, ⟨rfl, rfl⟩, fun _ => ⟨rfl, rfl⟩, fun _ _ _ => ⟨rfl, rfl⟩⟩

end Rini
